import Mathlib

/-!
Verification of the slms media server core against its specification.

The definitions below are a shallow embedding of the Rust sources:
  * `src/provider/http.rs`            — `send_file` and its Range handling,
  * `src/database/databasemanager.rs` — id recovery, index load, share walk,
                                        `get_items_from_parent`,
  * `src/media/mediaparser.rs`        — `convert_duration`,
  * `src/media/item.rs`               — `Item::generate_upnp_xml` and helpers,
  * `src/upnp/contentdirectory.rs`    — `handle_request` routing and `browse`
                                        pagination.

Conventions of the embedding:
  * Rust machine integers (`u8`/`u16`/`u32`/`u64`/`usize`) are `Nat`; the
    numeric-string parsers check the corresponding upper bound explicitly,
    mirroring `str::parse::<uN>` overflow errors.
  * Rust byte indices into strings are char indices here; the requests and
    headers involved are ASCII, where the two coincide.
  * A Rust `panic!` (out-of-range slice) is an explicit `Option.none` result.
  * Filesystem access (`fs::metadata`, `read_dir`, `Path::exists`) and the
    external `ffprobe` invocation are an oracle, the `FileSystem` structure:
    total functions from paths to the observations the code makes.
  * The unbounded directory recursion of `parse_folder` takes an explicit
    `fuel` bound (the source recurses on subdirectories without a bound).
-/

namespace Slms

/-! ## String helpers used by the embedded code -/

/-- ASCII lower-casing of one character, the effect `str::to_lowercase` has on
the ASCII request headers the server handles. -/
def asciiLower (c : Char) : Char :=
  if 'A' ≤ c ∧ c ≤ 'Z' then Char.ofNat (c.toNat + 32) else c

/-- Lower-case a whole string (ASCII). -/
def lowerStr (s : String) : String :=
  String.mk (s.data.map asciiLower)

/-- Index (in characters) of the first occurrence of `pat` in the list,
starting the count at `i`. Models Rust `str::find` for ASCII data. -/
def findSubFrom (pat : List Char) : List Char → Nat → Option Nat
  | [], i => if pat.isPrefixOf ([] : List Char) then some i else none
  | c :: t, i =>
    if pat.isPrefixOf (c :: t) then some i else findSubFrom pat t (i + 1)

/-- `find_sub hay pat` models Rust `hay.find(pat)` (char positions). -/
def find_sub (hay pat : String) : Option Nat :=
  findSubFrom pat.data hay.data 0

/-- Digits-only accumulation for `rust_parse_nat`. -/
def parseDigits : List Char → Nat → Option Nat
  | [], acc => some acc
  | c :: t, acc =>
    if c.isDigit then parseDigits t (acc * 10 + (c.toNat - '0'.toNat))
    else none

/-- Model of Rust `str::parse::<uN>()`: an optional leading `+`, then at
least one ASCII digit, and the value must fit the type's bound (otherwise
`Err`, mirrored as `none`). A leading `-` is not accepted by the unsigned
parsers. -/
def rust_parse_nat (bound : Nat) (s : String) : Option Nat :=
  let cs := match s.data with
    | '+' :: rest => rest
    | other => other
  match cs with
  | [] => none
  | _ =>
    match parseDigits cs 0 with
    | some v => if v ≤ bound then some v else none
    | none => none

/-- `u64::MAX`. -/
def U64MAX : Nat := 2 ^ 64 - 1

/-- `u32::MAX`. -/
def U32MAX : Nat := 2 ^ 32 - 1

/-- `u16::MAX`. -/
def U16MAX : Nat := 2 ^ 16 - 1

/-- `u8::MAX`. -/
def U8MAX : Nat := 2 ^ 8 - 1

/-! ## HTTP byte-range streaming (`src/provider/http.rs`, `send_file`) -/

/-- Outcome of `fs::metadata` in `send_file`, by `ErrorKind`. -/
inductive StatError where
  | notFound
  | permissionDenied
  | other
deriving DecidableEq

/-- The observable content of the response `send_file` writes to the
stream: status line, the `Content-Range` triple when present, the announced
`Content-Length`, and the body bytes actually transferred. -/
structure HttpOut where
  status : Nat
  content_range : Option (Nat × Nat × Nat)
  content_length : Nat
  body : List Nat
deriving DecidableEq

/-- `send_error`: header only, `Content-Length: 0`, no body. -/
def send_error (status : Nat) : HttpOut :=
  { status := status, content_range := none, content_length := 0, body := [] }

/-- Result of the `Range` parsing block of `send_file` (http.rs lines
134–201): no header found, a 400 path, or parsed `bytes_start`/`bytes_end`
(still unchecked against the file size). -/
inductive RangeParse where
  | noRange
  | malformed
  | bounds (bytes_start bytes_end : Nat)
deriving DecidableEq

/-- The `Range` parsing block of `send_file`, translated line by line.
Mirrors the source faithfully, including that in the `start-end` arm the
end is parsed from `bytes[position..]`, a slice which still contains the
`-` and therefore never parses as `u64`. -/
def parse_range (request : String) (file_size : Nat) : RangeParse :=
  match find_sub (lowerStr request) "range: bytes=" with
  | none => RangeParse.noRange
  | some position =>
    if position + 13 ≥ request.length then RangeParse.malformed
    else
      let bytes0 : List Char := request.data.drop (position + 13)
      match find_sub (String.mk bytes0) "\r\n" with
      | none => RangeParse.malformed
      | some cut =>
        let bytes : String := String.mk (bytes0.take cut)
        match find_sub bytes "-" with
        | some position =>
          if position = 0 then
            match rust_parse_nat U64MAX (String.mk (bytes.data.drop 1)) with
            | some v => RangeParse.bounds 0 v
            | none => RangeParse.malformed
          else if position = bytes.length - 1 then
            match rust_parse_nat U64MAX (String.mk (bytes.data.take position)) with
            | some v => RangeParse.bounds v file_size
            | none => RangeParse.malformed
          else
            match rust_parse_nat U64MAX (String.mk (bytes.data.take position)) with
            | none => RangeParse.malformed
            | some s =>
              match rust_parse_nat U64MAX (String.mk (bytes.data.drop position)) with
              | some e => RangeParse.bounds s e
              | none => RangeParse.malformed
        | none =>
          match rust_parse_nat U64MAX bytes with
          | some v => RangeParse.bounds v file_size
          | none => RangeParse.malformed

/-- The send loop of `send_file`: read chunks of 65515 bytes, write each
chunk whole, stop after a chunk once `transferred ≥ bytes_end` (the source
compares the running total against the absolute end offset) or at EOF. -/
def transfer_loop (remaining : List Nat) (bytes_end transferred : Nat) :
    List Nat :=
  match h : remaining.take 65515 with
  | [] => []
  | chunk@(_ :: _) =>
    chunk ++
      (if transferred + chunk.length ≥ bytes_end then []
       else transfer_loop (remaining.drop 65515) bytes_end
              (transferred + chunk.length))
termination_by remaining.length
decreasing_by
  have hne : remaining ≠ [] := by
    intro hnil
    rw [hnil] at h
    simp at h
  cases remaining with
  | nil => exact absurd rfl hne
  | cons a t => simp [List.length_drop]; omega

/-- `send_file` (http.rs lines 105–317): stat the file, parse the `Range`
header, emit the response. The `file` argument is the stat outcome; on
success it carries the file's bytes (its length is the stat size). -/
def send_file (file : Except StatError (List Nat)) (request : String) :
    HttpOut :=
  match file with
  | Except.error StatError.notFound => send_error 404
  | Except.error StatError.permissionDenied => send_error 403
  | Except.error StatError.other => send_error 500
  | Except.ok bytes =>
    let file_size := bytes.length
    match parse_range request file_size with
    | RangeParse.malformed => send_error 400
    | RangeParse.bounds bytes_start bytes_end =>
      if bytes_start > bytes_end ∨ bytes_end > file_size then send_error 416
      else
        { status := 206
          content_range := some (bytes_start, bytes_end, file_size)
          content_length := bytes_end - bytes_start
          body := transfer_loop (bytes.drop bytes_start) bytes_end 0 }
    | RangeParse.noRange =>
        { status := 200
          content_range := none
          content_length := file_size
          body := transfer_loop bytes file_size 0 }

/-! ## Media data model (`src/media/*.rs`, `src/database/folder.rs`) -/

/-- `MediaType` (item.rs). -/
inductive MediaType where
  | UNKNOWN
  | AUDIO
  | PICTURE
  | VIDEO
deriving DecidableEq

/-- `MediaType::from_string` (item.rs lines 39–47). -/
def MediaType.from_string (content : String) : MediaType :=
  if content = "1" then MediaType.AUDIO
  else if content = "2" then MediaType.PICTURE
  else if content = "3" then MediaType.VIDEO
  else MediaType.UNKNOWN

/-- `StreamType` (stream.rs). -/
inductive StreamType where
  | UNKNOWN
  | AUDIO
  | VIDEO
  | IMAGE
  | SUBTITLE
deriving DecidableEq

/-- `Stream` (stream.rs lines 70–83). -/
structure Stream where
  index : Nat
  stream_type : StreamType
  codec_name : String
  bitrate : Nat
  audio_channels : Nat
  sample_rate : Nat
  frame_width : Nat
  frame_height : Nat
  bit_depth : Nat
  language : String
  is_default : Bool
  is_forced : Bool
deriving DecidableEq

/-- `Stream::new`. -/
def Stream.new : Stream :=
  { index := 0, stream_type := StreamType.UNKNOWN, codec_name := ""
    bitrate := 0, audio_channels := 0, sample_rate := 0, frame_width := 0
    frame_height := 0, bit_depth := 0, language := "", is_default := false
    is_forced := false }

/-- `MetaData` (item.rs lines 55–76). -/
structure MetaData where
  title : String
  genre : String
  description : String
  long_description : String
  producer : String
  rating : String
  actor : String
  director : String
  publisher : String
  languages : List String
  artists : List String
  album : String
  track_number : String
  playlist : String
  contributor : String
  date : String
  copyrights : List String
  composer : String
  file_name : String
  file_extension : String
deriving DecidableEq

/-- `MetaData::new`. -/
def MetaData.new : MetaData :=
  { title := "", genre := "", description := "", long_description := ""
    producer := "", rating := "", actor := "", director := "", publisher := ""
    languages := [], artists := [], album := "", track_number := ""
    playlist := "", contributor := "", date := "", copyrights := []
    composer := "", file_name := "", file_extension := "" }

/-- `Thumbnail` (thumbnail.rs): the fields the database manager touches. -/
structure Thumbnail where
  item_id : Nat
  file_path : String
  file_size : Nat
  mime_type : String
  width : Nat
  height : Nat
deriving DecidableEq

/-- `Thumbnail::new`. -/
def Thumbnail.new : Thumbnail :=
  { item_id := 0, file_path := "", file_size := 0, mime_type := ""
    width := 0, height := 0 }

/-- `Container` (container.rs): the fields the database manager touches. -/
structure Container where
  id : Nat
  name : String
  file_extensions : List String
  mime_types : List String
deriving DecidableEq

/-- `Container::new`. -/
def Container.new : Container :=
  { id := 0, name := "", file_extensions := [], mime_types := [] }

/-- `Item` (item.rs lines 324–336). -/
structure Item where
  id : Nat
  parent_id : Nat
  last_modified : Nat
  file_path : String
  meta_data : MetaData
  media_type : MediaType
  duration : String
  file_size : Nat
  media_tracks : List Stream
  thumbnail : Thumbnail
  format_container : Container
deriving DecidableEq

/-- `Item::new`. -/
def Item.new : Item :=
  { id := 0, parent_id := 0, last_modified := 0, file_path := ""
    meta_data := MetaData.new, media_type := MediaType.UNKNOWN
    duration := "", file_size := 0, media_tracks := []
    thumbnail := Thumbnail.new, format_container := Container.new }

/-- `Folder` (folder.rs lines 7–14). -/
structure Folder where
  id : Nat
  parent_id : Nat
  title : String
  path : String
  element_count : Nat
  last_modified : Nat
deriving DecidableEq

/-- `Folder::new`. -/
def Folder.new : Folder :=
  { id := 0, parent_id := 0, title := "", path := "", element_count := 0
    last_modified := 0 }

/-! ## Filesystem and probe oracle

`DatabaseManager` observes the filesystem through `fs::metadata`,
`Path::exists`, `fs::read_dir` and through `mediaparser::parse_file`
(which shells out to ffprobe). The embedding makes those observations an
oracle of total functions. -/

/-- One entry of `fs::read_dir`: its full path and whether it is a
directory. -/
structure DirEntry where
  path : String
  is_dir : Bool
deriving DecidableEq

/-- What a successful `mediaparser::parse_file` writes into its target
item: probed duration, size, tracks, media type, the file's mtime, and the
derived file name / extension. (The ffprobe meta tags it additionally
copies into `meta_data` are orthogonal to the claims and elided.) -/
structure ProbeResult where
  duration : String
  file_size : Nat
  media_tracks : List Stream
  media_type : MediaType
  last_modified : Nat
  file_name : String
  file_extension : String
deriving DecidableEq

/-- The filesystem / probe oracle. `does_exist` models
`DatabaseManager::does_exist`, `last_modified` models
`DatabaseManager::get_last_modified` (0 on any error, in particular for a
missing path), `list_dir` models a successful `fs::read_dir` (a failing
`read_dir` behaves as an empty listing: the source returns from the loop),
and `probe` models `mediaparser::parse_file` (`none` = returned `false`). -/
structure FileSystem where
  does_exist : String → Bool
  last_modified : String → Nat
  list_dir : String → List DirEntry
  probe : String → Option ProbeResult

/-- `parse_file` updating `target` in place on success (mediaparser.rs
lines 30–320): sets the path, probed fields and derived names; never
touches `id` or `parent_id`. -/
def parse_file_update (item : Item) (p : ProbeResult) (path : String) :
    Item :=
  { item with
      file_path := path
      duration := p.duration
      file_size := p.file_size
      media_tracks := p.media_tracks
      media_type := p.media_type
      last_modified := p.last_modified
      meta_data := { item.meta_data with
                       file_name := p.file_name
                       file_extension := p.file_extension } }

/-! ## DatabaseManager state and id recovery
(`src/database/databasemanager.rs`) -/

/-- The mutable state of `DatabaseManager` (databasemanager.rs lines
32–39); `path`, `share_folders` and `media_formats` are omitted state the
claims do not touch (shares are passed to `boot_up` explicitly). -/
structure DbState where
  media_item : List Item
  media_folders : List Folder
  latest_id : Nat
deriving DecidableEq

/-- The state after `DatabaseManager::new` followed by `load` (lines
53–57): empty catalog, `latest_id = 1`. -/
def DbState.load : DbState :=
  { media_item := [], media_folders := [], latest_id := 1 }

/-- `set_latest_id` (lines 960–964): `latest_id` becomes the given id if
that id is greater. -/
def set_latest_id (st : DbState) (id : Nat) : DbState :=
  if id > st.latest_id then { st with latest_id := id } else st

/-- `get_next_id` (lines 968–973): returns the current `latest_id` and
increments it. -/
def get_next_id (st : DbState) : Nat × DbState :=
  (st.latest_id, { st with latest_id := st.latest_id + 1 })

/-- The ids of all live folders. -/
def folder_ids (st : DbState) : List Nat :=
  st.media_folders.map (fun f => f.id)

/-- The referential-integrity invariant of the claim: every item's
`parent_id` and every folder's `parent_id` is 0 (the implicit root) or the
id of a live folder. -/
def parent_closed (st : DbState) : Bool :=
  st.media_item.all
      (fun i => i.parent_id = 0 || (folder_ids st).contains i.parent_id) &&
  st.media_folders.all
      (fun f => f.parent_id = 0 || (folder_ids st).contains f.parent_id)

/-! ## Index load (`load_database`, databasemanager.rs lines 527–948) -/

/-- The attribute strings of a `<folder>` element of the on-disk index.
`XMLParser::get_value_from_name` returns the attribute's string, or `""`
when the attribute is missing; these fields carry that string. -/
structure FolderXml where
  count : String
  id : String
  parentId : String
  lastModified : String
  path : String
  title : String
deriving DecidableEq

/-- The attribute strings of an `<item>` element of the on-disk index.
The `<stream>`, `<thumbnail>` and `<meta>` children only fill the item's
tracks, thumbnail and meta data; a failing parse there drops just that
child (inner `continue`), never the item, so they are elided here. -/
structure ItemXml where
  duration : String
  path : String
  size : String
  id : String
  lastModified : String
  mtype : String
  parentId : String
deriving DecidableEq

/-- One child of the index's `<root>` element. -/
inductive DbXmlEntry where
  | folderE (f : FolderXml)
  | itemE (i : ItemXml)
deriving DecidableEq

/-- The `<folder>` arm of `load_database` (lines 615–690): parse `count`,
`id`, `parentId`, `lastModified` in that order, dropping the entry on the
first failure; record the id via `set_latest_id`; keep the folder iff its
path still exists (both mtime branches push the folder). -/
def load_folder_entry (fs : FileSystem) (st : DbState) (f : FolderXml) :
    DbState :=
  match rust_parse_nat U32MAX f.count with
  | none => st
  | some element_count =>
    match rust_parse_nat U64MAX f.id with
    | none => st
    | some id =>
      match rust_parse_nat U64MAX f.parentId with
      | none => st
      | some parent_id =>
        match rust_parse_nat U64MAX f.lastModified with
        | none => st
        | some last_modified =>
          let tmp_folder : Folder :=
            { id := id, parent_id := parent_id, title := f.title
              path := f.path, element_count := element_count
              last_modified := last_modified }
          let st := set_latest_id st tmp_folder.id
          if fs.does_exist tmp_folder.path then
            { st with media_folders := st.media_folders ++ [tmp_folder] }
          else st

/-- The `<item>` arm of `load_database` (lines 691–944): parse `size`,
`id`, `lastModified`, `parentId` in source order with per-entry drop;
record the id via `set_latest_id`; keep the item iff its path still
exists. -/
def load_item_entry (fs : FileSystem) (st : DbState) (i : ItemXml) :
    DbState :=
  match rust_parse_nat U64MAX i.size with
  | none => st
  | some file_size =>
    match rust_parse_nat U64MAX i.id with
    | none => st
    | some id =>
      match rust_parse_nat U64MAX i.lastModified with
      | none => st
      | some last_modified =>
        match rust_parse_nat U64MAX i.parentId with
        | none => st
        | some parent_id =>
          let tmp_item : Item :=
            { Item.new with
                duration := i.duration
                file_path := i.path
                file_size := file_size
                id := id
                last_modified := last_modified
                media_type := MediaType.from_string i.mtype
                parent_id := parent_id }
          let st := set_latest_id st tmp_item.id
          if fs.does_exist tmp_item.file_path then
            { st with media_item := st.media_item ++ [tmp_item] }
          else st

/-- `load_database`: fold the `<root>` element's children in order. -/
def load_database (fs : FileSystem) (entries : List DbXmlEntry)
    (st : DbState) : DbState :=
  entries.foldl
    (fun acc e =>
      match e with
      | DbXmlEntry.folderE f => load_folder_entry fs acc f
      | DbXmlEntry.itemE i => load_item_entry fs acc i)
    st

/-! ## Share walk (`parse_folder`, databasemanager.rs lines 131–306) -/

/-- `path.split("/").last()` with the trailing-`/` tolerance of
`parse_folder` (lines 175–191). Rust's split always yields at least one
piece, so the `None` arm of the source is unreachable; `""` stands in. -/
def folder_title_of_path (path : String) : String :=
  if path.data.drop (path.length - 1) = ['/'] then
    match (String.mk (path.data.take (path.length - 1))).splitOn "/" |>.getLast? with
    | some t => t
    | none => ""
  else
    match path.splitOn "/" |>.getLast? with
    | some t => t
    | none => ""

/-- Update the first element satisfying `p` in place, the effect of
mutating through the `&mut` reference `find`-style loops return. -/
def update_first (p : α → Bool) (f : α → α) : List α → List α
  | [] => []
  | a :: t => if p a then f a :: t else a :: update_first p f t

/-- Steps 1–2 of `parse_folder` (lines 135–204): returns the updated
state, the local `id` variable, and whether the walk of this directory
continues (`false` on the hidden-folder early return).

Faithful details: `id` starts at 0 and is only assigned in the
modified-existing and newly-created branches, so an existing, unchanged
folder leaves `id = 0`; `get_next_id` is consumed before the hidden check,
so a skipped hidden folder still advances `latest_id`. The source's
`&folder.title[..1]` would panic on an empty title; here an empty title
compares unequal to `"."` (such a title needs a path ending in `"//"`,
which the walk never produces). -/
def parse_folder_header (fs : FileSystem) (path : String) (parent_id : Nat)
    (st : DbState) : DbState × Nat × Bool :=
  match st.media_folders.find? (fun f => f.path = path) with
  | some folder =>
    if fs.last_modified path > folder.last_modified then
      let updated :=
        update_first (fun g => g.path = path)
          (fun g =>
            { g with last_modified := fs.last_modified path
                     element_count := (fs.list_dir path).length })
          st.media_folders
      ({ st with media_folders := updated }, folder.id, true)
    else (st, 0, true)
  | none =>
    let pair := get_next_id st
    let new_id := pair.1
    let st := pair.2
    let title := folder_title_of_path path
    if title.data.take 1 = ['.'] then (st, new_id, false)
    else
      let folder : Folder :=
        { id := new_id, parent_id := parent_id, title := title, path := path
          element_count := (fs.list_dir path).length
          last_modified := fs.last_modified path }
      ({ st with media_folders := st.media_folders ++ [folder] }, new_id, true)

/-- The file arm of the entry loop of `parse_folder` (lines 234–294): an
already-known file is re-probed in place when its mtime advanced; a new
file is probed, given a fresh id (consumed only on probe success) and the
directory's `id` as parent, and appended unless its probed file name is
empty or starts with `.`. -/
def parse_folder_file (fs : FileSystem) (ele_str : String) (id : Nat)
    (st : DbState) : DbState :=
  match st.media_item.find? (fun i => i.file_path = ele_str) with
  | some some_item =>
    if fs.last_modified ele_str > some_item.last_modified then
      match fs.probe ele_str with
      | some p =>
        { st with
            media_item :=
              update_first (fun i => i.file_path = ele_str)
                (fun i => parse_file_update i p ele_str) st.media_item }
      | none => st
    else st
  | none =>
    match fs.probe ele_str with
    | none => st
    | some p =>
      let pair := get_next_id st
      let st := pair.2
      let item : Item :=
        { parse_file_update Item.new p ele_str with
            id := pair.1, parent_id := id }
      if item.meta_data.file_name.length > 0 then
        if item.meta_data.file_name.data.take 1 = ['.'] then st
        else { st with media_item := st.media_item ++ [item] }
      else st

/-- `parse_folder` with an explicit recursion bound (the source's
recursion over subdirectories is bounded only by the directory tree):
`fuel = 0` stops where the source would keep descending. -/
def parse_folder (fs : FileSystem) : Nat → String → Nat → DbState → DbState
  | 0, _, _, st => st
  | fuel + 1, path, parent_id, st =>
    if path = "" ∨ fs.does_exist path = false then st
    else
      match parse_folder_header fs path parent_id st with
      | (st, _, false) => st
      | (st, id, true) =>
        (fs.list_dir path).foldl
          (fun acc element =>
            if element.is_dir then parse_folder fs fuel element.path id acc
            else parse_folder_file fs element.path id acc)
          st

/-- `boot_up` (lines 88–111): load the index, then walk every share with
`parse_folder(share, 0)`. The closing `save_database` only writes the
index file and does not change the live state, so it is omitted. -/
def boot_up (fs : FileSystem) (fuel : Nat) (entries : List DbXmlEntry)
    (share_folders : List String) : DbState :=
  share_folders.foldl
    (fun acc share => parse_folder fs fuel share 0 acc)
    (load_database fs entries DbState.load)

/-! ## Child item retrieval (`get_items_from_parent`, lines 1054–1074) -/

/-- The loop body of `get_items_from_parent` over the item list: returns
the result vector and the (possibly re-probed in place) stored items.
For a matching item whose recorded mtime is older than the current one,
the source skips it when the file no longer exists or re-probing fails
(`continue`), and otherwise pushes the re-probed item; a matching item
that does not test stale is pushed unchanged. -/
def items_from_parent_loop (fs : FileSystem) (parent_id : Nat) :
    List Item → List Item × List Item
  | [] => ([], [])
  | item :: rest =>
    let r := items_from_parent_loop fs parent_id rest
    if item.parent_id = parent_id then
      if item.last_modified < fs.last_modified item.file_path then
        if fs.does_exist item.file_path then
          match fs.probe item.file_path with
          | some p =>
            let u := parse_file_update item p item.file_path
            (u :: r.1, u :: r.2)
          | none => (r.1, item :: r.2)
        else (r.1, item :: r.2)
      else (item :: r.1, item :: r.2)
    else (r.1, item :: r.2)

/-- `get_items_from_parent`: result list plus the updated state. -/
def get_items_from_parent (fs : FileSystem) (st : DbState)
    (parent_id : Nat) : List Item × DbState :=
  let (res, store) := items_from_parent_loop fs parent_id st.media_item
  (res, { st with media_item := store })

/-! ## ContentDirectory browse pagination
(`src/upnp/contentdirectory.rs`, `browse`, lines 241–367) -/

/-- One emitted DIDL entry of a `BrowseDirectChildren` response: a folder
container or an item. The response body is the concatenation of
`generate_upnp_xml` of exactly these entries in order. -/
abbrev BrowseEntry := Folder ⊕ Item

/-- The shared shape of the two emission loops of `browse` (lines 304–311
and 320–335): emit list elements in order while
`act_count < requested_count || requested_count == 0`, `break` otherwise.
Returns the emitted elements and the final `act_count`. -/
def emit_loop (entries : List α) (act_count requested_count : Nat) :
    List α × Nat :=
  match entries with
  | [] => ([], act_count)
  | e :: rest =>
    if act_count < requested_count ∨ requested_count = 0 then
      let (res, final) := emit_loop rest (act_count + 1) requested_count
      (e :: res, final)
    else ([], act_count)

/-- The scalar outputs of a `BrowseDirectChildren` response. -/
structure BrowseResult where
  entries : List BrowseEntry
  number_returned : Nat
  total_matches : Nat
  update_id : Nat
deriving DecidableEq

/-- The pagination core of `browse` (lines 298–359), applied to the child
folder and child item vectors after fetching and sorting: skip
`start_index` inside the folder vector, emit folders under the
`requested_count` budget, restart the item cursor at 0 whenever the folder
loop emitted anything (`act_count > 0`), emit items under the remaining
budget; `TotalMatches` is the sum of both vector lengths and `UpdateID` is
2 iff anything was emitted. Sorting (lines 73–232) is deterministic, so
the same snapshot and criteria always feed equal vectors to this core. -/
def browse_direct_children (folders : List Folder) (items : List Item)
    (start_index requested_count : Nat) : BrowseResult :=
  let folder_pass := emit_loop (folders.drop start_index) 0 requested_count
  let act_count := folder_pass.2
  let item_index := if act_count > 0 then 0 else start_index
  let item_pass :=
    emit_loop (items.drop item_index) act_count requested_count
  { entries := folder_pass.1.map Sum.inl ++ item_pass.1.map Sum.inr
    number_returned := item_pass.2
    total_matches := folders.length + items.length
    update_id := if item_pass.2 = 0 then 1 else 2 }

/-! ## ContentDirectory request routing
(`handle_request`, contentdirectory.rs lines 47–71, and the dispatch in
`MediaServer::process_incoming`, mediaserver.rs lines 179–282) -/

/-- Which ContentDirectory handler `handle_request` selects. -/
inductive CDRoute where
  | subscribe
  | searchCapabilities
  | sortCapabilities
  | browseMetadata
  | browseChildren
  | searchMetadata
  | searchAll
  | systemUpdateId
  | emptyAnswer
deriving DecidableEq

/-- `ContentDirectory::handle_request` as a router. The source first
evaluates `&request[..36]`, a byte slice that panics when the request is
shorter than 36 bytes; the panic is the `none` result. -/
def handle_request_route (request : String) : Option CDRoute :=
  if request.length < 36 then none
  else if String.mk (request.data.take 36) =
      "SUBSCRIBE /content/content_directory" then
    some CDRoute.subscribe
  else if (find_sub request "u:GetSearchCapabilities").isSome then
    some CDRoute.searchCapabilities
  else if (find_sub request "u:GetSortCapabilities").isSome then
    some CDRoute.sortCapabilities
  else if (find_sub request "u:Browse").isSome then
    if (find_sub request "BrowseMetadata").isSome then
      some CDRoute.browseMetadata
    else some CDRoute.browseChildren
  else if (find_sub request "u:Search").isSome then
    if (find_sub request "SearchMetadata").isSome then
      some CDRoute.searchMetadata
    else some CDRoute.searchAll
  else if (find_sub request "u:GetSystemUpdateID").isSome then
    some CDRoute.systemUpdateId
  else some CDRoute.emptyAnswer

/-- The dispatch chain of `process_incoming` (mediaserver.rs lines
190–256): a request reaches `ContentDirectory::handle_request` iff it does
not contain `/connection/` but contains `/content/`. -/
def routed_to_content_directory (content : String) : Bool :=
  (find_sub content "/connection/").isNone &&
  (find_sub content "/content/").isSome

/-! ## DIDL-Lite item emission (`Item::generate_upnp_xml` and helpers,
item.rs lines 414–588) -/

/-- Renderer flags consumed during emission
(configuration/rendererconfiguration.rs). -/
structure RendererConfiguration where
  title_instead_of_name : Bool
  hide_file_extension : Bool
deriving DecidableEq

/-- The server fields consumed during emission
(configuration/serverconfiguration.rs). -/
structure ServerConfiguration where
  server_ip : String
  server_port : Nat
deriving DecidableEq

/-- `Item::get_bitrate` (lines 501–509). -/
def Item.get_bitrate (self : Item) : Nat :=
  self.media_tracks.foldl (fun rate s => rate + s.bitrate) 0

/-- `Item.get_audio_channels` (lines 515–523): first default stream with a
nonzero channel count. -/
def Item.get_audio_channels (self : Item) : Nat :=
  match self.media_tracks.find?
      (fun s => s.audio_channels ≠ 0 && s.is_default) with
  | some s => s.audio_channels
  | none => 0

/-- `Item.get_sample_rate` (lines 529–537). -/
def Item.get_sample_rate (self : Item) : Nat :=
  match self.media_tracks.find?
      (fun s => s.sample_rate ≠ 0 && s.is_default) with
  | some s => s.sample_rate
  | none => 0

/-- `Item.get_resolution` (lines 543–551). -/
def Item.get_resolution (self : Item) : String :=
  match self.media_tracks.find?
      (fun s => s.frame_width ≠ 0 && s.frame_height ≠ 0 && s.is_default) with
  | some s => toString s.frame_width ++ "x" ++ toString s.frame_height
  | none => ""

/-- `Item.get_mime_type` (lines 557–588). -/
def Item.get_mime_type (self : Item) : String :=
  match self.media_type with
  | MediaType.VIDEO =>
    let e := lowerStr self.meta_data.file_extension
    if e = "mkv" then "video/x-matroska"
    else if e = "avi" then "video/x-msvideo"
    else if e = "mpeg" ∨ e = "mpg" ∨ e = "mpe" then "video/mpeg"
    else if e = "mov" ∨ e = "qt" then "video/quicktime"
    else if e = "mp4" then "video/mp4"
    else "video/*"
  | MediaType.AUDIO =>
    let e := lowerStr self.meta_data.file_extension
    if e = "mp3" then "audio/mpeg"
    else if e = "wav" then "audio/x-wav"
    else if e = "flac" then "audio/flac"
    else "audio/*"
  | MediaType.PICTURE =>
    let e := lowerStr self.meta_data.file_extension
    if e = "jpg" ∨ e = "jpeg" ∨ e = "jpe" then "image/jpeg"
    else if e = "png" then "image/png"
    else "image/*"
  | MediaType.UNKNOWN => "*"

/-- Worker for `replace_all`: scan left to right, replacing each match of
the (nonempty) pattern. Each step consumes at least one character, so a
fuel of the input's length makes the recursion structural without
changing the result. -/
def replace_all_go (pat rep : List Char) : Nat → List Char → List Char
  | 0, l => l
  | _ + 1, [] => []
  | fuel + 1, c :: t =>
    if pat ≠ [] ∧ pat.isPrefixOf (c :: t) then
      rep ++ replace_all_go pat rep fuel ((c :: t).drop pat.length)
    else c :: replace_all_go pat rep fuel t

/-- Replace every occurrence of `pat` by `rep`, modeling Rust
`str::replace` for a nonempty pattern. -/
def replace_all (s pat rep : String) : String :=
  String.mk (replace_all_go pat.data rep.data s.data.length s.data)

/-- `MetaData::generate_upnp_xml` (item.rs lines 199–312), including the
source's literal tag typos (`dc_language`, the `dc:contributor` closed as
`upnp:contributor`, `dc:rightse`). -/
def MetaData.generate_upnp_xml (self : MetaData) : String :=
  (if self.genre.length > 0 then
    "&lt;upnp:genre&gt;" ++ self.genre ++ "&lt;/upnp:genre&gt;" else "") ++
  (if self.description.length > 0 then
    "&lt;dc:description&gt;" ++ self.description ++ "&lt;/dc:description&gt;"
   else "") ++
  (if self.long_description.length > 0 then
    "&lt;upnp:longDescription&gt;" ++ self.long_description ++
      "&lt;/upnp:longDescription&gt;" else "") ++
  (if self.producer.length > 0 then
    "&lt;upnp:producer&gt;" ++ self.producer ++ "&lt;/upnp:producer&gt;"
   else "") ++
  (if self.rating.length > 0 then
    "&lt;upnp:rating&gt;" ++ self.rating ++ "&lt;/upnp:rating&gt;" else "") ++
  (if self.actor.length > 0 then
    "&lt;upnp:actor&gt;" ++ self.actor ++ "&lt;/upnp:actor&gt;" else "") ++
  (if self.director.length > 0 then
    "&lt;upnp:director&gt;" ++ self.director ++ "&lt;/upnp:director&gt;"
   else "") ++
  (if self.publisher.length > 0 then
    "&lt;dc:publisher&gt;" ++ self.publisher ++ "&lt;/dc:publisher&gt;"
   else "") ++
  (if self.album.length > 0 then
    "&lt;upnp:album&gt;" ++ self.album ++ "&lt;/upnp:album&gt;" else "") ++
  (if self.track_number.length > 0 then
    "&lt;upnp:originalTrackNumber&gt;" ++ self.track_number ++
      "&lt;/upnp:originalTrackNumber&gt;" else "") ++
  (if self.playlist.length > 0 then
    "&lt;upnp:playlist&gt;" ++ self.playlist ++ "&lt;/upnp:playlist&gt;"
   else "") ++
  (if self.contributor.length > 0 then
    "&lt;dc:contributor&gt;" ++ self.contributor ++ "&lt;/upnp:contributor&gt;"
   else "") ++
  (if self.date.length > 0 then
    "&lt;upnp:date&gt;" ++ self.date ++ "&lt;/upnp:date&gt;" else "") ++
  String.join (self.languages.map
    (fun l => "&lt;dc_language&gt;" ++ l ++ "&lt;/dc:language&gt;")) ++
  String.join (self.artists.map
    (fun a => "&lt;upnp:artist&gt;" ++ a ++ "&lt;/upnp:artist&gt;")) ++
  String.join (self.copyrights.map
    (fun c => "&lt;dc:rights&gt;" ++ c ++ "&lt;/dc:rightse&gt;"))

/-- The media-type-specific attribute block of `Item::generate_upnp_xml`
(item.rs lines 445–463), translated as written: the outer match emits the
`bitrate`/`duration`/`nrAudioChannels`/`sampleFrequency` attributes only
in its `MediaType::PICTURE` arm, and the `resolution` attribute sits in a
nested match on the same `media_type` inside that arm, where it can never
be `VIDEO`. -/
def Item.media_type_attrs (self : Item) : String :=
  match self.media_type with
  | MediaType.PICTURE =>
    "bitrate=\"" ++ toString self.get_bitrate ++ "\" duration=\"" ++
      self.duration ++ "\" nrAudioChannels=\"" ++
      toString self.get_audio_channels ++ "\" sampleFrequency=\"" ++
      toString self.get_sample_rate ++ "\" " ++
    (match self.media_type with
     | MediaType.VIDEO => "resolution=\"" ++ self.get_resolution ++ "\" "
     | _ => "")
  | _ => ""

/-- `Item::generate_upnp_xml` (item.rs lines 414–498). -/
def Item.generate_upnp_xml (self : Item)
    (renderer_cfg : RendererConfiguration)
    (server_cfg : ServerConfiguration) : String :=
  let title0 := self.meta_data.file_name
  let title :=
    if renderer_cfg.title_instead_of_name then self.meta_data.title
    else if renderer_cfg.hide_file_extension = false then
      title0 ++ "." ++ self.meta_data.file_extension
    else title0
  let title := replace_all (replace_all title "&amp;" " u. ") "&" " u. "
  "&lt;item id=\"" ++ toString self.id ++ "\" parentID=\"" ++
    toString self.parent_id ++ "\" restricted=\"1\"&gt;" ++
  "&lt;dc:title&gt;" ++ title ++
    "&lt;/dc:title&gt;&lt;res xmlns:dlna=\"urn:schemas-dlna-org:metadata-1-0/\" protocolInfo=\"http-get:*:" ++
    self.get_mime_type ++ ":DLNA.ORG_OP=11;DLNA.ORG_CI=0\" " ++
  self.media_type_attrs ++
  "size=\"" ++ toString self.file_size ++ "\"&gt;http://" ++
    server_cfg.server_ip ++ ":" ++ toString server_cfg.server_port ++
    "/stream/" ++ toString self.id ++ "&lt;/res&gt;" ++
  (match self.media_type with
   | MediaType.UNKNOWN =>
     "&lt;upnp:class&gt;object.item.imageItem&lt;/upnp:class&gt;"
   | MediaType.AUDIO =>
     "&lt;upnp:class&gt;object.item.audioItem&lt;/upnp:class&gt;"
   | MediaType.PICTURE =>
     "&lt;upnp:class&gt;object.item.imageItem&lt;/upnp:class&gt;"
   | MediaType.VIDEO =>
     "&lt;upnp:class&gt;object.item.videoItem&lt;/upnp:class&gt;") ++
  self.meta_data.generate_upnp_xml ++ "&lt;/item&gt;"

/-! ## Duration formatting (`convert_duration`, mediaparser.rs lines
355–394)

The source computes with `f64`; the embedding computes with exact
rationals. `parse_f64` parses the plain decimal strings ffprobe emits
(sign, digits, optional fraction); on such inputs of moderate size the
`f64` value differs from the exact rational by a relative error around
`2^-52`, which cannot move any of the truncations below across an integer
boundary except when the input is chosen adversarially close to one, so
the two agree on the inputs at issue here. -/

/-- Parse an optional-sign plain decimal string into an exact rational,
modeling `str::parse::<f64>()` on ffprobe's duration strings (scientific
notation and the special values are not produced there and are left
unparsed). -/
def parse_f64 (s : String) : Option ℚ :=
  let (sign, cs) : ℚ × List Char :=
    match s.data with
    | '-' :: rest => (-1, rest)
    | '+' :: rest => (1, rest)
    | other => (1, other)
  let intPart := cs.takeWhile Char.isDigit
  let rest := cs.drop intPart.length
  match intPart, rest with
  | [], _ => none
  | _ :: _, [] =>
    match parseDigits intPart 0 with
    | some v => some (sign * v)
    | none => none
  | _ :: _, '.' :: fracPart =>
    if fracPart ≠ [] ∧ fracPart.all Char.isDigit then
      match parseDigits intPart 0, parseDigits fracPart 0 with
      | some v, some f =>
        some (sign * (v + (f : ℚ) / (10 : ℚ) ^ fracPart.length))
      | _, _ => none
    else none
  | _ :: _, _ => none

/-- Rust `f64 as u32`: truncate toward zero, saturating at the type's
bounds (negative values become 0). -/
def trunc_u32 (q : ℚ) : Nat :=
  if q < 0 then 0 else min U32MAX ⌊q⌋₊

/-- `convert_duration` (lines 355–394), translated as written: on parse
failure the seconds value falls back to `0.0`; hours, minutes and the
second remainder are `as u32` truncations; the fractional suffix is the
input from its first `.` on (dot included) — or `".00"` when there is no
dot — of which the first three characters are appended. The source's
`&ms[..3]` panics when that suffix is shorter than three characters; the
panic is `none`. These notes describe `convert_duration` below; `ms_suffix`
is its `ms` variable and `duration_value` its `seconds` variable. -/
def ms_suffix (duration : String) : List Char :=
  match find_sub duration "." with
  | some value => duration.data.drop value
  | none => ['.', '0', '0']

/-- The seconds value `convert_duration` works with: the parsed number, or
`0` on parse failure (the source's `Err(_) => 0.0`). -/
def duration_value (duration : String) : ℚ :=
  match parse_f64 duration with
  | some value => value
  | none => 0

/-- `convert_duration` (mediaparser.rs lines 355-394), see the notes
above. -/
def convert_duration (duration : String) : Option String :=
  let seconds : ℚ := duration_value duration
  let hours : Nat := trunc_u32 (seconds / (60 * 60))
  let minutes : Nat := trunc_u32 (seconds / 60 - (hours : ℚ) * 60)
  let seconds_dif : Nat := trunc_u32 seconds - hours * 60 * 60 - minutes * 60
  let ms : List Char := ms_suffix duration
  if ms.length < 3 then none
  else some
    ((if hours < 10 then "0" else "") ++ toString hours ++ ":" ++
     (if minutes < 10 then "0" else "") ++ toString minutes ++ ":" ++
     (if seconds_dif < 10 then "0" else "") ++ toString seconds_dif ++
     String.mk (ms.take 3))

/-- Modelled from the spec: "`duration` is the format `HH:MM:SS.mmm`,
zero-padded" — two-digit zero-padded fields from a total-second count,
followed by a fractional suffix. Used to compare `convert_duration`
against the spec's format. -/
def spec_pad2 (n : Nat) : String :=
  (if n < 10 then "0" else "") ++ toString n

/-- Modelled from the spec: the `HH:MM:SS` part computed from a
total-second count `t`, followed by the fractional suffix `frac`. -/
def spec_format_duration (t : Nat) (frac : String) : String :=
  spec_pad2 (t / 3600) ++ ":" ++ spec_pad2 (t % 3600 / 60) ++ ":" ++
    spec_pad2 (t % 60) ++ frac

/-- Checks that a string ends in a dot followed by exactly three digits —
the `HH:MM:SS.mmm` shape the claim asserts. -/
def three_digit_fraction (s : String) : Bool :=
  let cs := s.data
  decide (4 ≤ cs.length) &&
  (cs.drop (cs.length - 4)).take 1 = ['.'] &&
  (cs.drop (cs.length - 3)).all Char.isDigit

/-! # Theorems

Helper lemmas first, then one theorem per claim (with witnesses and
counterexamples where required). -/

/-! ## Browse pagination (claims C3, C4) -/

/-- Closed form of `emit_loop`: a zero budget emits everything, otherwise
the remaining budget of elements; the final count adds the number of
emitted elements. -/
theorem emit_loop_eq (es : List α) (a c : Nat) :
    emit_loop es a c =
      (if c = 0 then es else es.take (c - a),
       a + if c = 0 then es.length else min (c - a) es.length) := by
  induction es generalizing a with
  | nil =>
    simp only [emit_loop]
    split <;> simp
  | cons e rest ih =>
    by_cases hc : c = 0
    · subst hc
      simp [emit_loop, ih]
      omega
    · by_cases ha : a < c
      · have hcond : a < c ∨ c = 0 := Or.inl ha
        have h1 : c - a = (c - (a + 1)) + 1 := by omega
        simp only [emit_loop, if_pos hcond, ih, if_neg hc, h1,
          List.take_succ_cons, List.length_cons]
        have h2 : a + 1 + min (c - (a + 1)) rest.length =
            a + min (c - (a + 1) + 1) (rest.length + 1) := by omega
        rw [h2]
      · have hcond : ¬(a < c ∨ c = 0) := by
          push_neg
          exact ⟨Nat.le_of_not_lt ha, hc⟩
        simp only [emit_loop, if_neg hcond, if_neg hc]
        have h1 : c - a = 0 := by omega
        rw [h1]
        simp

/-- The folders a `BrowseDirectChildren` response emits: the child-folder
vector from `StartingIndex` on, cut to `RequestedCount` when that is
nonzero. -/
def emitted_folders (folders : List Folder) (s c : Nat) : List Folder :=
  if c = 0 then folders.drop s else (folders.drop s).take c

/-- The index at which the item loop of `browse` starts: 0 as soon as the
folder loop emitted anything, the raw `StartingIndex` otherwise. -/
def emitted_item_start (folders : List Folder) (s c : Nat) : Nat :=
  if 0 < (emitted_folders folders s c).length then 0 else s

/-- The items a `BrowseDirectChildren` response emits: the child-item
vector from `emitted_item_start` on, cut to the remaining budget when
`RequestedCount` is nonzero. -/
def emitted_items (folders : List Folder) (items : List Item) (s c : Nat) :
    List Item :=
  if c = 0 then items.drop (emitted_item_start folders s c)
  else (items.drop (emitted_item_start folders s c)).take
         (c - (emitted_folders folders s c).length)

/-- Closed form of the whole `browse` pagination core. -/
theorem browse_direct_children_eq (folders : List Folder)
    (items : List Item) (s c : Nat) :
    browse_direct_children folders items s c =
      { entries := (emitted_folders folders s c).map Sum.inl ++
                   (emitted_items folders items s c).map Sum.inr
        number_returned := (emitted_folders folders s c).length +
                           (emitted_items folders items s c).length
        total_matches := folders.length + items.length
        update_id := if (emitted_folders folders s c).length +
                        (emitted_items folders items s c).length = 0
                     then 1 else 2 } := by
  unfold browse_direct_children
  simp only [emit_loop_eq, Nat.zero_add, Nat.sub_zero]
  have hef : (if c = 0 then folders.drop s else (folders.drop s).take c) =
      emitted_folders folders s c := rfl
  have heflen :
      (if c = 0 then (folders.drop s).length
       else min c (folders.drop s).length) =
        (emitted_folders folders s c).length := by
    simp only [emitted_folders]
    split <;> simp [List.length_take]
  rw [hef, heflen]
  have histart :
      (if (emitted_folders folders s c).length > 0 then 0 else s) =
        emitted_item_start folders s c := rfl
  rw [histart]
  have hei :
      (if c = 0 then items.drop (emitted_item_start folders s c)
       else (items.drop (emitted_item_start folders s c)).take
              (c - (emitted_folders folders s c).length)) =
        emitted_items folders items s c := rfl
  rw [hei]
  have heilen :
      (if c = 0 then (items.drop (emitted_item_start folders s c)).length
       else min (c - (emitted_folders folders s c).length)
              (items.drop (emitted_item_start folders s c)).length) =
        (emitted_items folders items s c).length := by
    simp only [emitted_items]
    split <;> simp [List.length_take]
  rw [heilen]

/-- C3: for every `Browse(BrowseDirectChildren)` request, after sorting,
`StartingIndex` entries are skipped inside the folder vector first (and as
soon as at least one folder was emitted the item cursor restarts at 0,
not at `StartingIndex`); at most `RequestedCount` entries are emitted, all
remaining ones when `RequestedCount` is 0; `TotalMatches` is the number of
child folders plus child items; and `UpdateID` is 2 when at least one
entry was emitted and 1 otherwise. -/
theorem browse_pagination_contract (folders : List Folder)
    (items : List Item) (start_index requested_count : Nat) :
    (browse_direct_children folders items start_index requested_count).entries =
        (emitted_folders folders start_index requested_count).map Sum.inl ++
        (emitted_items folders items start_index requested_count).map Sum.inr ∧
    (browse_direct_children folders items start_index requested_count).number_returned =
        (browse_direct_children folders items start_index requested_count).entries.length ∧
    (browse_direct_children folders items start_index requested_count).entries.length ≤
        (if requested_count = 0 then folders.length + items.length
         else requested_count) ∧
    (browse_direct_children folders items start_index requested_count).total_matches =
        folders.length + items.length ∧
    (browse_direct_children folders items start_index requested_count).update_id =
        (if (browse_direct_children folders items start_index requested_count).entries = []
         then 1 else 2) := by
  rw [browse_direct_children_eq]
  refine ⟨rfl, by simp, ?_, rfl, ?_⟩
  · simp only [List.length_append, List.length_map]
    by_cases hc : requested_count = 0
    · rw [if_pos hc]
      have h1 : (emitted_folders folders start_index requested_count).length ≤
          folders.length := by
        simp only [emitted_folders, if_pos hc, List.length_drop]
        omega
      have h2 :
          (emitted_items folders items start_index requested_count).length ≤
            items.length := by
        simp only [emitted_items, if_pos hc, List.length_drop]
        omega
      omega
    · rw [if_neg hc]
      have h1 : (emitted_folders folders start_index requested_count).length ≤
          requested_count := by
        simp only [emitted_folders, if_neg hc, List.length_take]
        omega
      have h2 :
          (emitted_items folders items start_index requested_count).length ≤
            requested_count -
              (emitted_folders folders start_index requested_count).length := by
        simp only [emitted_items, if_neg hc, List.length_take]
        omega
      omega
  · by_cases h :
        (emitted_folders folders start_index requested_count).length +
          (emitted_items folders items start_index requested_count).length = 0
    · have h1 : emitted_folders folders start_index requested_count = [] :=
        List.length_eq_zero.mp (by omega)
      have h2 : emitted_items folders items start_index requested_count = [] :=
        List.length_eq_zero.mp (by omega)
      simp [h, h1, h2]
    · have hne :
          ¬((emitted_folders folders start_index requested_count).map
              (Sum.inl : Folder → BrowseEntry) ++
            (emitted_items folders items start_index requested_count).map
              Sum.inr = []) := by
        intro hz
        rw [List.append_eq_nil] at hz
        rcases hz with ⟨hz1, hz2⟩
        rw [List.map_eq_nil_iff] at hz1 hz2
        rw [hz1, hz2] at h
        exact h rfl
      simp [if_neg h, if_neg hne]

/-- C4, amended: the concatenation identity
`Browse(0,k) ++ Browse(k,unbounded) = Browse(0,unbounded)` holds for
`k ≥ 1` whenever `k` is less than the number of child folders, or there
are no child folders, or no child items, or `k` is at least the total
number of children. (As stated over all `k` the claim fails: when `k`
lands at or past the folder/item boundary with folders and further items
present, the second call restarts the folder skip inside the item vector
and drops entries — see the counterexample.) -/
theorem browse_concat_pagination_amended (folders : List Folder)
    (items : List Item) (k : Nat) (hk : 1 ≤ k)
    (hcase : folders = [] ∨ k < folders.length ∨ items = [] ∨
             folders.length + items.length ≤ k) :
    (browse_direct_children folders items 0 k).entries ++
      (browse_direct_children folders items k 0).entries =
      (browse_direct_children folders items 0 0).entries := by
  have hk0 : k ≠ 0 := by omega
  rw [browse_direct_children_eq, browse_direct_children_eq,
    browse_direct_children_eq]
  rcases hcase with hf | hlt | hi | hge
  · subst hf
    simp [emitted_folders, emitted_items, emitted_item_start, if_neg hk0,
      ← List.map_append]
  · have h1 : emitted_folders folders 0 k = folders.take k := by
      simp [emitted_folders, if_neg hk0]
    have h1len : (folders.take k).length = k := by
      simp [List.length_take]
      omega
    have h2 : emitted_items folders items 0 k = [] := by
      simp [emitted_items, if_neg hk0, h1, h1len]
    have h3 : emitted_folders folders k 0 = folders.drop k := by
      simp [emitted_folders]
    have h4 : emitted_item_start folders k 0 = 0 := by
      simp [emitted_item_start, h3, List.length_drop]
      omega
    have h5 : emitted_items folders items k 0 = items := by
      simp [emitted_items, h4]
    have h6 : emitted_folders folders 0 0 = folders := by
      simp [emitted_folders]
    have h7 : emitted_items folders items 0 0 = items := by
      simp [emitted_items, emitted_item_start]
    rw [h1, h2, h3, h5, h6, h7]
    simp only [List.map_nil, List.append_nil]
    rw [← List.append_assoc, ← List.map_append, List.take_append_drop]
  · subst hi
    simp [emitted_folders, emitted_items, emitted_item_start, if_neg hk0,
      ← List.map_append]
  · have hfk : folders.length ≤ k := by omega
    have hik : items.length ≤ k := by omega
    have h1 : emitted_folders folders 0 k = folders := by
      simp [emitted_folders, if_neg hk0, List.take_of_length_le hfk]
    have h2 : emitted_items folders items 0 k = items := by
      simp [emitted_items, if_neg hk0, h1, emitted_item_start,
        List.take_of_length_le (show items.length ≤ k - folders.length by omega)]
    have h3 : emitted_folders folders k 0 = [] := by
      simp [emitted_folders, List.drop_eq_nil_of_le hfk]
    have h4 : emitted_items folders items k 0 = [] := by
      simp [emitted_items, emitted_item_start, h3,
        List.drop_eq_nil_of_le hik]
    have h5 : emitted_folders folders 0 0 = folders := by
      simp [emitted_folders]
    have h6 : emitted_items folders items 0 0 = items := by
      simp [emitted_items, emitted_item_start]
    rw [h1, h2, h3, h4, h5, h6]
    simp

/-- A child folder for the pagination counterexample. -/
def sample_folder : Folder := { Folder.new with id := 1, title := "f" }

/-- A child item for the pagination counterexample. -/
def sample_item_a : Item := { Item.new with id := 2 }

/-- A second child item for the pagination counterexample. -/
def sample_item_b : Item := { Item.new with id := 3 }

/-- C4, counterexample: with one child folder and two child items,
`Browse(0,2)` emits the folder and the first item, while `Browse(2,∞)`
skips two *folders* (none are left) and, since no folder was emitted,
starts the item loop at index 2 — emitting nothing. Their concatenation
loses the second item and differs from `Browse(0,∞)`. -/
theorem browse_concat_counterexample :
    (browse_direct_children [sample_folder] [sample_item_a, sample_item_b]
        0 2).entries ++
      (browse_direct_children [sample_folder] [sample_item_a, sample_item_b]
        2 0).entries ≠
      (browse_direct_children [sample_folder] [sample_item_a, sample_item_b]
        0 0).entries := by
  decide

/-- Witness for the amended C4 theorem at a concrete input (no folders,
one item, `k = 1`). -/
theorem browse_concat_amended_witness :
    (browse_direct_children [] [sample_item_a] 0 1).entries ++
      (browse_direct_children [] [sample_item_a] 1 0).entries =
      (browse_direct_children [] [sample_item_a] 0 0).entries :=
  browse_concat_pagination_amended [] [sample_item_a] 1 (by omega)
    (Or.inl rfl)

/-! ## `send_file` Range handling (claims C1, C6) -/

/-- C1: evaluation at the failing input. The claim requires a request with
`Range: bytes=2-5` on a 10-byte file to get `206 Partial Content`,
`Content-Range: bytes 2-5/10`, `Content-Length: 3` and body bytes
`[2, 5)`; the code parses the range end from `bytes[position..]`, a slice
that still contains the `-`, so the `u64` parse fails and every
`start-end` range is answered `400 Bad Request` with an empty body. -/
theorem send_file_start_end_range_rejected :
    send_file (Except.ok (List.range 10))
        "GET /x HTTP/1.1\r\nRange: bytes=2-5\r\n\r\n" = send_error 400 := rfl

/-- C6, counterexample: the claim names `Range: bytes=a-b` with `a > b` as
an input answered `416`; on `bytes=5-2` over a 10-byte file the code
instead answers `400` (the `start-end` form never parses, see C1), so the
`a-b` instances of the claim fail. -/
theorem send_file_reversed_range_not_416 :
    (send_file (Except.ok (List.range 10))
        "GET /x HTTP/1.1\r\nRange: bytes=5-2\r\n\r\n") = send_error 400 ∧
    (send_file (Except.ok (List.range 10))
        "GET /x HTTP/1.1\r\nRange: bytes=5-2\r\n\r\n").status ≠ 416 := by
  constructor
  · rfl
  · decide

/-- C6, amended: for every Range request that the code actually parses
(the `-end`, `start-` and bare `start` forms; `start-end` is rejected 400
before any bound check), if the computed start exceeds the computed end or
the computed end exceeds the file size, `send_file` answers
`416 Range Not Satisfiable` with `Content-Length: 0` and an empty body —
in particular the file is never opened and no file bytes are read. -/
theorem send_file_416_on_unsatisfiable_range
    (bytes : List Nat) (request : String) (s e : Nat)
    (hp : parse_range request bytes.length = RangeParse.bounds s e)
    (hbad : s > e ∨ e > bytes.length) :
    send_file (Except.ok bytes) request = send_error 416 := by
  simp only [send_file]
  rw [hp]
  simp only [if_pos hbad]

/-- Witness for the amended C6 theorem: `Range: bytes=-20` on a 10-byte
file parses to bounds `(0, 20)` with `20 > 10`, and the response is the
empty-bodied 416. -/
theorem send_file_416_witness :
    parse_range "GET /f HTTP/1.1\r\nRange: bytes=-20\r\n\r\n"
        (List.range 10).length = RangeParse.bounds 0 20 ∧
    send_file (Except.ok (List.range 10))
        "GET /f HTTP/1.1\r\nRange: bytes=-20\r\n\r\n" = send_error 416 :=
  ⟨rfl, send_file_416_on_unsatisfiable_range (List.range 10) _ 0 20 rfl
    (by simp)⟩

/-! ## Id recovery after load (claim C2) -/

/-- Filesystem for the id-collision run: only the folder path `/a`
exists. -/
def c2_fs : FileSystem :=
  { does_exist := fun p => p = "/a"
    last_modified := fun _ => 0
    list_dir := fun _ => []
    probe := fun _ => none }

/-- An index holding a single folder with id 5. -/
def c2_entries : List DbXmlEntry :=
  [DbXmlEntry.folderE
    { count := "0", id := "5", parentId := "0", lastModified := "0"
      path := "/a", title := "a" }]

/-- C2: evaluation at the failing input. After loading an index whose
largest id is 5, `latest_id` is `max(1, 5) = 5` — `set_latest_id` keeps
`max(latest, id)`, not `max(latest, id + 1)` — and the next `get_next_id`
hands out 5 itself, the id of the already-loaded folder. The next-id
counter is therefore not strictly greater than every observed id, and the
first freshly assigned id collides with an existing one. -/
theorem next_id_collides_after_load :
    (get_next_id (load_database c2_fs c2_entries DbState.load)).1 = 5 ∧
    (folder_ids (load_database c2_fs c2_entries DbState.load)).contains 5 =
      true := by
  constructor
  · rfl
  · rfl

/-! ## Child item retrieval (claim C8) -/

/-- The per-item result rule of `get_items_from_parent`: drop foreign
items; re-probe matching stale items (dropping them if the file vanished
or the probe fails); return matching non-stale items unchanged. -/
def refresh_rule (fs : FileSystem) (parent_id : Nat) (item : Item) :
    Option Item :=
  if item.parent_id = parent_id then
    if item.last_modified < fs.last_modified item.file_path then
      if fs.does_exist item.file_path then
        match fs.probe item.file_path with
        | some p => some (parse_file_update item p item.file_path)
        | none => none
      else none
    else some item
  else none

/-- The per-item storage rule of `get_items_from_parent`: a matching stale
item that re-probes successfully is updated in place; everything else is
left as stored. -/
def store_rule (fs : FileSystem) (parent_id : Nat) (item : Item) : Item :=
  if item.parent_id = parent_id then
    if item.last_modified < fs.last_modified item.file_path then
      if fs.does_exist item.file_path then
        match fs.probe item.file_path with
        | some p => parse_file_update item p item.file_path
        | none => item
      else item
    else item
  else item

/-- The loop of `get_items_from_parent` is the `filterMap` of
`refresh_rule` paired with the `map` of `store_rule`. -/
theorem items_from_parent_loop_eq (fs : FileSystem) (pid : Nat)
    (items : List Item) :
    items_from_parent_loop fs pid items =
      (items.filterMap (refresh_rule fs pid),
       items.map (store_rule fs pid)) := by
  induction items with
  | nil => rfl
  | cons item rest ih =>
    simp only [items_from_parent_loop, List.filterMap_cons, List.map_cons]
    by_cases h1 : item.parent_id = pid
    · by_cases h2 : item.last_modified < fs.last_modified item.file_path
      · by_cases h3 : fs.does_exist item.file_path
        · cases hp : fs.probe item.file_path with
          | some p => simp [refresh_rule, store_rule, h1, h2, h3, hp, ih]
          | none => simp [refresh_rule, store_rule, h1, h2, h3, hp, ih]
        · simp [refresh_rule, store_rule, h1, h2, h3, ih]
      · simp [refresh_rule, store_rule, h1, h2, ih]
    · simp [refresh_rule, store_rule, h1, ih]

/-- C8, amended: `get_items_from_parent` returns, in order, exactly the
child items of the folder, where an item whose recorded mtime is strictly
below its current on-disk mtime is re-probed in place before being
returned (and dropped from the result when the existence check or the
re-probe fails); an item whose file has vanished is *returned unchanged*,
not skipped — a missing file reports mtime 0, so such an item never
enters the staleness branch that contains the existence check. -/
theorem get_items_from_parent_characterization (fs : FileSystem)
    (st : DbState) (parent_id : Nat) :
    (get_items_from_parent fs st parent_id).1 =
        st.media_item.filterMap (refresh_rule fs parent_id) ∧
    (get_items_from_parent fs st parent_id).2.media_item =
        st.media_item.map (store_rule fs parent_id) := by
  unfold get_items_from_parent
  rw [items_from_parent_loop_eq]
  exact ⟨rfl, rfl⟩

/-- An item whose file has vanished from the filesystem. -/
def vanished_item : Item :=
  { Item.new with
      id := 3, parent_id := 1, last_modified := 10
      file_path := "/g/v.mkv" }

/-- A filesystem on which nothing exists any more. -/
def gone_fs : FileSystem :=
  { does_exist := fun _ => false
    last_modified := fun _ => 0
    list_dir := fun _ => []
    probe := fun _ => none }

/-- The library state holding only the vanished item. -/
def gone_state : DbState :=
  { media_item := [vanished_item], media_folders := [], latest_id := 4 }

/-- C8, counterexample: the claim says an item whose file has vanished is
skipped; in fact `get_last_modified` yields 0 for the missing file, the
staleness test `10 < 0` fails, and the item is returned as stored. -/
theorem vanished_item_still_returned :
    (get_items_from_parent gone_fs gone_state 1).1 = [vanished_item] ∧
    (get_items_from_parent gone_fs gone_state 1).1 ≠ [] := by
  constructor
  · rfl
  · decide

/-! ## DIDL-Lite emission for VIDEO items (claim C9) -/

/-- A default video stream carrying every attribute the claim expects to
be emitted. -/
def video_stream : Stream :=
  { Stream.new with
      stream_type := StreamType.VIDEO, frame_width := 1280
      frame_height := 720, bitrate := 5000, audio_channels := 2
      sample_rate := 48000, is_default := true }

/-- A VIDEO item with that default stream. -/
def video_item : Item :=
  { Item.new with
      id := 9, parent_id := 1, media_type := MediaType.VIDEO
      duration := "00:01:00.00", file_size := 100
      media_tracks := [video_stream]
      meta_data :=
        { MetaData.new with file_name := "movie", file_extension := "mkv" } }

/-- Renderer flags as in the default renderer configuration. -/
def default_renderer : RendererConfiguration :=
  { title_instead_of_name := false, hide_file_extension := false }

/-- Concrete server configuration for emission. -/
def sample_server : ServerConfiguration :=
  { server_ip := "192.0.2.5", server_port := 5001 }

set_option maxRecDepth 8192 in
/-- C9: evaluation at the failing input. For a VIDEO item whose default
stream provides all the data, the emitted `res` element carries none of
`bitrate`, `duration`, `nrAudioChannels`, `sampleFrequency`, `resolution`:
the attribute block only fires for `MediaType::PICTURE`, and the
`resolution` branch sits in dead code nested inside that arm. -/
theorem video_item_res_attrs_missing :
    video_item.media_type = MediaType.VIDEO ∧
    Item.get_resolution video_item = "1280x720" ∧
    Item.media_type_attrs video_item = "" ∧
    find_sub (Item.generate_upnp_xml video_item default_renderer
      sample_server) "bitrate=" = none ∧
    find_sub (Item.generate_upnp_xml video_item default_renderer
      sample_server) "nrAudioChannels=" = none ∧
    find_sub (Item.generate_upnp_xml video_item default_renderer
      sample_server) "sampleFrequency=" = none ∧
    find_sub (Item.generate_upnp_xml video_item default_renderer
      sample_server) "resolution=" = none ∧
    find_sub (Item.generate_upnp_xml video_item default_renderer
      sample_server) "duration=" = none := by
  refine ⟨rfl, rfl, rfl, ?_, ?_, ?_, ?_, ?_⟩ <;> rfl

/-! ## ContentDirectory request routing (claim C10) -/

/-- C10: evaluation at the failing input. The 24-byte request
`POST /content/x HTTP/1.1` is routed to the ContentDirectory handler
(it contains `/content/` and not `/connection/`), whose first action is
the byte slice `&request[..36]` — which panics for any request shorter
than 36 bytes, aborting the worker that holds the library mutex, instead
of answering or returning the empty string. -/
theorem short_content_request_panics :
    routed_to_content_directory "POST /content/x HTTP/1.1" = true ∧
    ("POST /content/x HTTP/1.1" : String).length < 36 ∧
    handle_request_route "POST /content/x HTTP/1.1" = none := by
  refine ⟨rfl, ?_, rfl⟩
  decide

/-! ## Referential integrity of the library (claim C5) -/

/-- Propositional form of `parent_closed`. -/
def ParentClosed (st : DbState) : Prop :=
  (∀ i ∈ st.media_item, i.parent_id = 0 ∨ i.parent_id ∈ folder_ids st) ∧
  (∀ f ∈ st.media_folders, f.parent_id = 0 ∨ f.parent_id ∈ folder_ids st)

/-- `parent_closed` decides `ParentClosed`. -/
theorem parent_closed_iff (st : DbState) :
    parent_closed st = true ↔ ParentClosed st := by
  simp [parent_closed, ParentClosed, List.all_eq_true, List.elem_iff]

/-- `update_first` leaves any projection the update preserves unchanged. -/
theorem update_first_map_eq {α β : Type} (p : α → Bool) (f : α → α)
    (g : α → β) (l : List α) (hg : ∀ a, g (f a) = g a) :
    (update_first p f l).map g = l.map g := by
  induction l with
  | nil => rfl
  | cons a t ih =>
    simp only [update_first]
    by_cases hp : p a
    · simp [hp, hg]
    · simp [hp, ih]

/-- Every element of `update_first p f l` is an element of `l` or the image
of one under `f`. -/
theorem update_first_mem {α : Type} (p : α → Bool) (f : α → α)
    (l : List α) (b : α) (hb : b ∈ update_first p f l) :
    b ∈ l ∨ ∃ a ∈ l, b = f a := by
  induction l with
  | nil => simp [update_first] at hb
  | cons a t ih =>
    simp only [update_first] at hb
    by_cases hp : p a
    · rw [if_pos hp] at hb
      rcases List.mem_cons.mp hb with h | h
      · exact Or.inr ⟨a, List.mem_cons_self a t, h⟩
      · exact Or.inl (List.mem_cons_of_mem a h)
    · rw [if_neg hp] at hb
      rcases List.mem_cons.mp hb with h | h
      · exact Or.inl (h ▸ List.mem_cons_self a t)
      · rcases ih h with h2 | ⟨a2, ha2, hba2⟩
        · exact Or.inl (List.mem_cons_of_mem a h2)
        · exact Or.inr ⟨a2, List.mem_cons_of_mem a ha2, hba2⟩

/-- Steps 1-2 of `parse_folder` preserve parent closure, only ever grow
the folder-id set, leave the items untouched, and, whenever the walk
continues, hand back a directory id that is 0 or a live folder id. -/
theorem parse_folder_header_spec (fs : FileSystem) (path : String)
    (pid : Nat) (st : DbState) (hcl : ParentClosed st)
    (hpid : pid = 0 ∨ pid ∈ folder_ids st) :
    ParentClosed (parse_folder_header fs path pid st).1 ∧
    (∀ x ∈ folder_ids st,
      x ∈ folder_ids (parse_folder_header fs path pid st).1) ∧
    ((parse_folder_header fs path pid st).2.2 = true →
      (parse_folder_header fs path pid st).2.1 = 0 ∨
      (parse_folder_header fs path pid st).2.1 ∈
        folder_ids (parse_folder_header fs path pid st).1) ∧
    (parse_folder_header fs path pid st).1.media_item = st.media_item := by
  rcases hfind : st.media_folders.find? (fun f => f.path = path) with _ | folder
  · -- no folder with this path yet: fresh id, maybe append
    simp only [parse_folder_header, hfind, get_next_id]
    by_cases hhid : (folder_title_of_path path).data.take 1 = ['.']
    · rw [if_pos hhid]
      refine ⟨⟨hcl.1, hcl.2⟩, ?_, ?_, rfl⟩
      · intro x hx; exact hx
      · intro hfalse; cases hfalse
    · rw [if_neg hhid]
      have hidsub : ∀ x ∈ folder_ids st,
          x ∈ folder_ids
            { st with
                latest_id := st.latest_id + 1
                media_folders := st.media_folders ++
                  [{ id := st.latest_id, parent_id := pid
                     title := folder_title_of_path path, path := path
                     element_count := (fs.list_dir path).length
                     last_modified := fs.last_modified path }] } := by
        intro x hx
        simp only [folder_ids, List.map_append, List.mem_append] at hx ⊢
        exact Or.inl hx
      refine ⟨⟨?_, ?_⟩, hidsub, ?_, rfl⟩
      · intro i hi
        rcases hcl.1 i hi with h | h
        · exact Or.inl h
        · exact Or.inr (hidsub _ h)
      · intro f hf
        simp only [List.mem_append, List.mem_singleton] at hf
        rcases hf with hf | hf
        · rcases hcl.2 f hf with h | h
          · exact Or.inl h
          · exact Or.inr (hidsub _ h)
        · subst hf
          dsimp only
          rcases hpid with h | h
          · exact Or.inl h
          · exact Or.inr (hidsub _ h)
      · intro _
        right
        simp [folder_ids, List.map_append]
  · -- existing folder
    by_cases hmt : fs.last_modified path > folder.last_modified
    · simp only [parse_folder_header, hfind, if_pos hmt]
      have hids : folder_ids
          { st with
              media_folders :=
                update_first (fun g => g.path = path)
                  (fun g =>
                    { g with last_modified := fs.last_modified path
                             element_count := (fs.list_dir path).length })
                  st.media_folders } = folder_ids st := by
        simp only [folder_ids]
        exact update_first_map_eq _ _ _ _ (fun a => rfl)
      refine ⟨⟨?_, ?_⟩, ?_, ?_, by trivial⟩
      · intro i hi
        rw [hids]
        exact hcl.1 i hi
      · intro f hf
        rw [hids]
        rcases update_first_mem _ _ _ _ hf with h | ⟨a, ha, hfa⟩
        · exact hcl.2 f h
        · subst hfa
          exact hcl.2 a ha
      · intro x hx
        rw [hids]; exact hx
      · intro _
        right
        rw [hids]
        exact List.mem_map.mpr ⟨folder, List.mem_of_find?_eq_some hfind, rfl⟩
    · simp only [parse_folder_header, hfind, if_neg hmt]
      refine ⟨hcl, fun x hx => hx, ?_, by trivial⟩
      intro _
      simp

/-- The file arm of `parse_folder` preserves parent closure (a new item
receives the walked directory id as parent) and never touches the folder
list. -/
theorem parse_folder_file_spec (fs : FileSystem) (ele : String) (id : Nat)
    (st : DbState) (hcl : ParentClosed st)
    (hid : id = 0 ∨ id ∈ folder_ids st) :
    ParentClosed (parse_folder_file fs ele id st) ∧
    (parse_folder_file fs ele id st).media_folders = st.media_folders := by
  rcases hfind : st.media_item.find? (fun i => i.file_path = ele)
    with _ | some_item
  · rcases hp : fs.probe ele with _ | p
    · simp only [parse_folder_file, hfind, hp]
      exact ⟨hcl, by trivial⟩
    · simp only [parse_folder_file, hfind, hp, get_next_id]
      split
      · split
        · exact ⟨hcl, by trivial⟩
        · refine ⟨⟨?_, ?_⟩, by trivial⟩
          · intro i hi
            rcases List.mem_append.mp hi with h | h
            · exact hcl.1 i h
            · rw [List.mem_singleton] at h
              subst h
              exact hid
          · intro f hf
            exact hcl.2 f hf
      · exact ⟨hcl, by trivial⟩
  · by_cases hmt : fs.last_modified ele > some_item.last_modified
    · rcases hp : fs.probe ele with _ | p
      · simp only [parse_folder_file, hfind, if_pos hmt, hp]
        exact ⟨hcl, by trivial⟩
      · simp only [parse_folder_file, hfind, if_pos hmt, hp]
        refine ⟨⟨?_, ?_⟩, by trivial⟩
        · intro i hi
          rcases update_first_mem _ _ _ _ hi with h | ⟨a, ha, hia⟩
          · exact hcl.1 i h
          · subst hia
            exact hcl.1 a ha
        · intro f hf
          exact hcl.2 f hf
    · simp only [parse_folder_file, hfind, if_neg hmt]
      exact ⟨hcl, by trivial⟩


/-- The directory-entry loop of `parse_folder` preserves parent closure
and only grows the folder-id set, given that recursion into
subdirectories does. -/
theorem parse_entries_fold_spec (fs : FileSystem) (fuel : Nat)
    (ihf : ∀ (path : String) (pid : Nat) (st : DbState), ParentClosed st →
      (pid = 0 ∨ pid ∈ folder_ids st) →
      ParentClosed (parse_folder fs fuel path pid st) ∧
      (∀ x ∈ folder_ids st,
        x ∈ folder_ids (parse_folder fs fuel path pid st)))
    (id : Nat) :
    ∀ (es : List DirEntry) (st : DbState), ParentClosed st →
      (id = 0 ∨ id ∈ folder_ids st) →
      ParentClosed (es.foldl
        (fun acc element =>
          if element.is_dir then parse_folder fs fuel element.path id acc
          else parse_folder_file fs element.path id acc) st) ∧
      (∀ x ∈ folder_ids st,
        x ∈ folder_ids (es.foldl
          (fun acc element =>
            if element.is_dir then parse_folder fs fuel element.path id acc
            else parse_folder_file fs element.path id acc) st)) := by
  intro es
  induction es with
  | nil =>
    intro st h1 _
    exact ⟨h1, fun x hx => hx⟩
  | cons e rest ihe =>
    intro st h1 h2
    simp only [List.foldl_cons]
    by_cases hdir : e.is_dir
    · rw [if_pos hdir]
      obtain ⟨q1, q2⟩ := ihf e.path id st h1 h2
      have h2a : id = 0 ∨ id ∈ folder_ids (parse_folder fs fuel e.path id st) := by
        rcases h2 with h | h
        · exact Or.inl h
        · exact Or.inr (q2 _ h)
      obtain ⟨r1, r2⟩ := ihe (parse_folder fs fuel e.path id st) q1 h2a
      exact ⟨r1, fun x hx => r2 x (q2 x hx)⟩
    · rw [if_neg hdir]
      obtain ⟨q1, qf⟩ := parse_folder_file_spec fs e.path id st h1 h2
      have hids : folder_ids (parse_folder_file fs e.path id st) =
          folder_ids st := by
        simp only [folder_ids, qf]
      have h2a : id = 0 ∨ id ∈ folder_ids (parse_folder_file fs e.path id st) := by
        rw [hids]
        exact h2
      obtain ⟨r1, r2⟩ := ihe (parse_folder_file fs e.path id st) q1 h2a
      refine ⟨r1, fun x hx => r2 x ?_⟩
      rw [hids]
      exact hx

/-- `parse_folder` preserves parent closure from any parent id that is 0
or a live folder id, and only grows the folder-id set. -/
theorem parse_folder_spec (fs : FileSystem) :
    ∀ (fuel : Nat) (path : String) (pid : Nat) (st : DbState),
      ParentClosed st → (pid = 0 ∨ pid ∈ folder_ids st) →
      ParentClosed (parse_folder fs fuel path pid st) ∧
      (∀ x ∈ folder_ids st,
        x ∈ folder_ids (parse_folder fs fuel path pid st)) := by
  intro fuel
  induction fuel with
  | zero =>
    intro path pid st h1 _
    exact ⟨h1, fun x hx => hx⟩
  | succ fuel ih =>
    intro path pid st h1 h2
    simp only [parse_folder]
    split
    · exact ⟨h1, fun x hx => hx⟩
    · obtain ⟨hh1, hh2, hh3, _⟩ := parse_folder_header_spec fs path pid st h1 h2
      rcases hhdr : parse_folder_header fs path pid st with ⟨st1, id, cont⟩
      rw [hhdr] at hh1 hh2 hh3
      cases cont
      · exact ⟨hh1, hh2⟩
      · have hidok : id = 0 ∨ id ∈ folder_ids st1 := hh3 rfl
        obtain ⟨r1, r2⟩ :=
          parse_entries_fold_spec fs fuel ih id (fs.list_dir path) st1 hh1 hidok
        exact ⟨r1, fun x hx => r2 x (hh2 x hx)⟩

/-- C5, amended: the share walk of `boot_up` preserves referential
integrity — if the state `load_database` produces is parent-closed (every
item's and every non-root folder's `parent_id` is 0, the implicit root, or
a live folder's id), then every state `boot_up` reaches is parent-closed.
The load itself does not guarantee this: an index entry dropped by a
per-attribute parse failure or a vanished folder path can leave retained
children with dangling parent ids (see the counterexample), which is the
hypothesis the claim must add. -/
theorem boot_up_parent_closure (fs : FileSystem) (fuel : Nat)
    (entries : List DbXmlEntry) (shares : List String)
    (h : parent_closed (load_database fs entries DbState.load) = true) :
    parent_closed (boot_up fs fuel entries shares) = true := by
  rw [parent_closed_iff] at h ⊢
  unfold boot_up
  have main : ∀ (sh : List String) (st : DbState), ParentClosed st →
      ParentClosed (sh.foldl
        (fun acc share => parse_folder fs fuel share 0 acc) st) := by
    intro sh
    induction sh with
    | nil =>
      intro st h1
      exact h1
    | cons s rest ihs =>
      intro st h1
      simp only [List.foldl_cons]
      exact ihs _ (parse_folder_spec fs fuel s 0 st h1 (Or.inl rfl)).1
  exact main shares _ h

/-- Filesystem for the integrity counterexample: only the item file
exists; the folder path and the share are gone. -/
def c5_fs : FileSystem :=
  { does_exist := fun p => p = "/a/f/v.mp3"
    last_modified := fun _ => 0
    list_dir := fun _ => []
    probe := fun _ => none }

/-- An index whose folder entry has a corrupt `count` attribute (dropped
at load) while its child item parses fine and its file still exists. -/
def c5_entries : List DbXmlEntry :=
  [DbXmlEntry.folderE
    { count := "x", id := "7", parentId := "0", lastModified := "0"
      path := "/a/f", title := "f" },
   DbXmlEntry.itemE
    { duration := "", path := "/a/f/v.mp3", size := "10", id := "8"
      lastModified := "5", mtype := "1", parentId := "7" }]

/-- C5, counterexample: booting over `c5_entries` yields a reachable state
holding an item with `parent_id = 7` while no folder exists at all — the
corrupt folder entry was dropped, its child kept. -/
theorem boot_up_violates_parent_integrity :
    (boot_up c5_fs 16 c5_entries ["/a"]).media_item.map
        (fun i => (i.id, i.parent_id)) = [(8, 7)] ∧
    folder_ids (boot_up c5_fs 16 c5_entries ["/a"]) = [] ∧
    parent_closed (boot_up c5_fs 16 c5_entries ["/a"]) = false := by
  refine ⟨rfl, rfl, rfl⟩

/-- A healthy filesystem: share `/a` holding one probe-able file. -/
def c5_good_fs : FileSystem :=
  { does_exist := fun p => p == "/a" || p == "/a/v.mp3"
    last_modified := fun _ => 5
    list_dir := fun p =>
      if p = "/a" then [{ path := "/a/v.mp3", is_dir := false }] else []
    probe := fun p =>
      if p = "/a/v.mp3" then
        some { duration := "00:00:01.00", file_size := 10, media_tracks := []
               media_type := MediaType.AUDIO, last_modified := 5
               file_name := "v", file_extension := "mp3" }
      else none }

/-- Witness for the amended C5 theorem: from an empty index (trivially
parent-closed) booting over the healthy share yields a parent-closed
state. -/
theorem boot_up_parent_closure_witness :
    parent_closed (load_database c5_good_fs [] DbState.load) = true ∧
    parent_closed (boot_up c5_good_fs 4 [] ["/a"]) = true :=
  ⟨rfl, boot_up_parent_closure c5_good_fs 4 [] ["/a"] rfl⟩

/-! ## Duration formatting (claim C7) -/

/-- Below the `u32` bound, the truncating cast is the natural floor. -/
theorem trunc_u32_eq_floor (q : ℚ) (h0 : 0 ≤ q) (h32 : q < 2 ^ 32) :
    trunc_u32 q = ⌊q⌋₊ := by
  have hlt : ⌊q⌋₊ < 2 ^ 32 := (Nat.floor_lt h0).mpr (by exact_mod_cast h32)
  simp only [trunc_u32, U32MAX]
  rw [if_neg (not_lt.mpr h0)]
  omega

/-- The hours computation of `convert_duration` is integer division of
the floored seconds by 3600. -/
theorem trunc_u32_hours (q : ℚ) (h0 : 0 ≤ q) (h32 : q < 2 ^ 32) :
    trunc_u32 (q / (60 * 60)) = ⌊q⌋₊ / 3600 := by
  have hcast : (60 * 60 : ℚ) = ((3600 : ℕ) : ℚ) := by norm_num
  have hpos : 0 ≤ q / (60 * 60) := by positivity
  have hlt : ⌊q⌋₊ < 2 ^ 32 := (Nat.floor_lt h0).mpr (by exact_mod_cast h32)
  simp only [trunc_u32, U32MAX]
  rw [if_neg (not_lt.mpr hpos), hcast, Nat.floor_div_nat]
  have hle : ⌊q⌋₊ / 3600 ≤ ⌊q⌋₊ := Nat.div_le_self _ _
  omega

/-- The minutes computation of `convert_duration` is the minute part of
the floored seconds. -/
theorem trunc_u32_minutes (q : ℚ) (h0 : 0 ≤ q) (h32 : q < 2 ^ 32) :
    trunc_u32 (q / 60 - ((⌊q⌋₊ / 3600 : ℕ) : ℚ) * 60) =
      ⌊q⌋₊ % 3600 / 60 := by
  have hcast : ((⌊q⌋₊ / 3600 : ℕ) : ℚ) * 60 =
      ((⌊q⌋₊ / 3600 * 60 : ℕ) : ℚ) := by push_cast; ring
  have hnn : 0 ≤ q / 60 - ((⌊q⌋₊ / 3600 : ℕ) : ℚ) * 60 := by
    rw [sub_nonneg, hcast, le_div_iff₀ (by norm_num : (0:ℚ) < 60)]
    have h1 : ((⌊q⌋₊ / 3600 * 60 : ℕ) : ℚ) * 60 =
        ((⌊q⌋₊ / 3600 * 3600 : ℕ) : ℚ) := by push_cast; ring
    rw [h1]
    calc ((⌊q⌋₊ / 3600 * 3600 : ℕ) : ℚ)
        ≤ (⌊q⌋₊ : ℚ) := Nat.cast_le.mpr (Nat.div_mul_le_self _ _)
      _ ≤ q := Nat.floor_le h0
  have hq60 : ⌊q / 60⌋₊ = ⌊q⌋₊ / 60 := by
    have h60 : (60 : ℚ) = ((60 : ℕ) : ℚ) := by norm_num
    rw [h60, Nat.floor_div_nat]
  have hlt : ⌊q⌋₊ < 2 ^ 32 := (Nat.floor_lt h0).mpr (by exact_mod_cast h32)
  simp only [trunc_u32, U32MAX]
  rw [if_neg (not_lt.mpr hnn), hcast, Nat.floor_sub_nat, hq60]
  omega

/-- `convert_duration` produces exactly the spec-side `HH:MM:SS` format
of the floored seconds value, followed by the source's three-character
fractional suffix, whenever that suffix is long enough (otherwise the
source panics) and the seconds value is a representable nonnegative
duration. -/
theorem convert_duration_spec_format (s : String)
    (hms : 3 ≤ (ms_suffix s).length)
    (h0 : 0 ≤ duration_value s)
    (h32 : duration_value s < 2 ^ 32) :
    convert_duration s =
      some (spec_format_duration ⌊duration_value s⌋₊
        (String.mk ((ms_suffix s).take 3))) := by
  simp only [convert_duration]
  rw [trunc_u32_hours (duration_value s) h0 h32,
    trunc_u32_minutes (duration_value s) h0 h32,
    trunc_u32_eq_floor (duration_value s) h0 h32]
  rw [if_neg (by omega : ¬(ms_suffix s).length < 3)]
  have hsec : ⌊duration_value s⌋₊ - ⌊duration_value s⌋₊ / 3600 * 60 * 60 -
      ⌊duration_value s⌋₊ % 3600 / 60 * 60 = ⌊duration_value s⌋₊ % 60 := by
    omega
  rw [hsec]
  apply congrArg some
  apply String.ext
  simp [spec_format_duration, spec_pad2]

/-- A hit of `findSubFrom` is at or after the start offset and the
pattern is a prefix of the haystack there. -/
theorem findSubFrom_le_isPrefix (pat : List Char) :
    ∀ (hay : List Char) (i v : Nat), findSubFrom pat hay i = some v →
      i ≤ v ∧ pat.isPrefixOf (hay.drop (v - i)) = true := by
  intro hay
  induction hay with
  | nil =>
    intro i v h
    simp only [findSubFrom] at h
    by_cases hp : pat.isPrefixOf ([] : List Char)
    · rw [if_pos hp] at h
      cases h
      refine ⟨Nat.le_refl _, ?_⟩
      simpa using hp
    · rw [if_neg hp] at h
      cases h
  | cons c t ih =>
    intro i v h
    simp only [findSubFrom] at h
    by_cases hp : pat.isPrefixOf (c :: t)
    · rw [if_pos hp] at h
      cases h
      refine ⟨Nat.le_refl _, ?_⟩
      simpa using hp
    · rw [if_neg hp] at h
      obtain ⟨h1, h2⟩ := ih (i + 1) v h
      refine ⟨by omega, ?_⟩
      have hvi : v - i = (v - (i + 1)) + 1 := by omega
      rw [hvi, List.drop_succ_cons]
      exact h2

/-- A list with `[.]` as prefix starts with the dot. -/
theorem take_one_of_dot_isPrefix (l : List Char)
    (h : (['.'] : List Char).isPrefixOf l = true) : l.take 1 = ['.'] := by
  cases l with
  | nil => simp [List.isPrefixOf] at h
  | cons c t =>
    simp only [List.isPrefixOf, List.isPrefixOf_nil_left, Bool.and_true] at h
    have hc : c = '.' := by
      cases hbeq : ('.' == c)
      · rw [hbeq] at h; cases h
      · exact (beq_iff_eq.mp hbeq).symm
    simp [hc]

/-- The fractional suffix always starts with the dot. -/
theorem ms_suffix_dot_head (s : String) : (ms_suffix s).take 1 = ['.'] := by
  rcases hv : find_sub s "." with _ | v
  · simp [ms_suffix, hv]
  · simp only [ms_suffix, hv]
    obtain ⟨_, h2⟩ := findSubFrom_le_isPrefix (String.data ".") s.data 0 v hv
    rw [Nat.sub_zero] at h2
    exact take_one_of_dot_isPrefix _ h2

/-- C7, amended: for every input whose fractional suffix (from the first
`.` on, or the substituted `".00"`) has at least three characters — on
shorter suffixes the source panics on `&ms[..3]` — and whose parsed
seconds value is nonnegative and below `2^32`, `convert_duration` returns
`HH:MM:SS` (each field zero-padded to two digits, computed from the
truncated seconds) followed by a fractional part of exactly three
characters: the dot and the first TWO characters after it — not the
three-digit `.mmm` of the claim — and `".00"` when the input has no
fractional part. -/
theorem convert_duration_amended (s : String)
    (hms : 3 ≤ (ms_suffix s).length)
    (h0 : 0 ≤ duration_value s)
    (h32 : duration_value s < 2 ^ 32) :
    convert_duration s =
      some (spec_format_duration ⌊duration_value s⌋₊
        (String.mk ((ms_suffix s).take 3))) ∧
    ((ms_suffix s).take 3).length = 3 ∧
    ((ms_suffix s).take 3).take 1 = ['.'] ∧
    (find_sub s "." = none →
      String.mk ((ms_suffix s).take 3) = ".00") := by
  refine ⟨convert_duration_spec_format s hms h0 h32, ?_, ?_, ?_⟩
  · simp only [List.length_take]
    omega
  · rw [List.take_take]
    exact ms_suffix_dot_head s
  · intro hnone
    simp [ms_suffix, hnone]

/-- C7, counterexample: `convert_duration "3723.456"` is
`"01:02:03.45"` — the fractional part keeps two digits, not three (the
spec's own scenario S4 agrees with the code here and contradicts the
three-digit claim). -/
theorem convert_duration_not_three_digit :
    convert_duration "3723.456" = some "01:02:03.45" ∧
    three_digit_fraction "01:02:03.45" = false ∧
    three_digit_fraction "01:02:03.456" = true := by
  have hval : duration_value "3723.456" = 3723456 / 1000 := by
    have h : duration_value "3723.456" =
        1 * (((3723 : ℕ) : ℚ) + ((456 : ℕ) : ℚ) / (10 : ℚ) ^ 3) := rfl
    rw [h]
    norm_num
  have hfloor : ⌊(3723456 / 1000 : ℚ)⌋₊ = 3723 := by
    have h : ((3723456 : ℚ) / 1000) = ((3723456 : ℕ) : ℚ) / ((1000 : ℕ) : ℚ) := by
      norm_num
    rw [h, Nat.floor_div_nat, Nat.floor_natCast]
  have h0 : 0 ≤ duration_value "3723.456" := by
    rw [hval]
    norm_num
  have h32 : duration_value "3723.456" < 2 ^ 32 := by
    rw [hval]
    norm_num
  have hmsl : 3 ≤ (ms_suffix "3723.456").length := by decide
  have hfmt := convert_duration_spec_format "3723.456" hmsl h0 h32
  rw [hfmt, hval, hfloor]
  exact ⟨rfl, rfl, rfl⟩

/-- Witness for the amended C7 theorem at the dotless input `"61"`. -/
theorem convert_duration_amended_witness :
    convert_duration "61" =
      some (spec_format_duration ⌊duration_value "61"⌋₊
        (String.mk ((ms_suffix "61").take 3))) ∧
    ((ms_suffix "61").take 3).length = 3 ∧
    ((ms_suffix "61").take 3).take 1 = ['.'] ∧
    (find_sub "61" "." = none →
      String.mk ((ms_suffix "61").take 3) = ".00") :=
  convert_duration_amended "61" (by decide)
    (by
      have h : duration_value "61" = 1 * ((61 : ℕ) : ℚ) := rfl
      rw [h]
      norm_num)
    (by
      have h : duration_value "61" = 1 * ((61 : ℕ) : ℚ) := rfl
      rw [h]
      norm_num)

end Slms
